import Mathlib

/-!
Verification development for the `operator diagnose` command
(`src/command/operator_diagnose.go`).

The embedding below follows the source file.  The `vault/diagnose`
package itself (Init, StartSpan, Warn, Error, Test, Shutdown, Report)
and `ServerCommand.InitListeners` are code of the repository that is
not under `src/`; those parts are modelled from the specification, as
their doc comments state.  External collaborators (configuration
loader, listener bind, TLS construction, storage backend factory,
cross-listener structural validation) are oracles gathered in `Env`.
-/

namespace OperatorDiagnose

/-- Severity of a message attached to a span, as produced by
`diagnose.Warn` and `diagnose.Error`. -/
inductive Severity
  | warn
  | error
deriving DecidableEq, Repr

/-- A message recorded on a span. -/
structure Message where
  severity : Severity
  text : String
deriving DecidableEq, Repr

/-- A node of the diagnose span tree: name, parent (none for the root
span), the ordered messages recorded on it, and whether it has ended. -/
structure SpanRec where
  name : String
  parent : Option Nat
  messages : List Message
  ended : Bool
deriving DecidableEq, Repr

/-- Modelled from the spec: the run-scoped state of the diagnose
reporter (the `vault/diagnose` package is not under `src/`).  Spans are
kept in creation order and addressed by index; `shutdowns` counts the
`Shutdown` calls of the run. -/
structure DiagState where
  spans : List SpanRec
  shutdowns : Nat
deriving DecidableEq, Repr

/-- Modelled from the spec: `Init()` resets the run-scoped reporter
state. -/
def DiagState.init : DiagState :=
  { spans := [], shutdowns := 0 }

/-- Replace the element at index `i` of a list by `f` of it; out of
range leaves the list unchanged. -/
def updateAt : List SpanRec → Nat → (SpanRec → SpanRec) → List SpanRec
  | [], _, _ => []
  | x :: xs, 0, f => f x :: xs
  | x :: xs, Nat.succ n, f => x :: updateAt xs n f

/-- Modelled from the spec: `StartSpan(ctx, name)` creates a new span
as a child of the span active in the context and returns the context
carrying the child.  A context is the index of its active span. -/
def startSpan (d : DiagState) (ctx : Option Nat) (name : String) :
    DiagState × Nat :=
  ({ d with spans := d.spans ++ [{ name := name, parent := ctx, messages := [], ended := false }] },
   d.spans.length)

/-- Modelled from the spec: append a message to the span active in the
context (`diagnose.Warn` / `diagnose.Error`). -/
def addMessage (d : DiagState) (ctx : Nat) (m : Message) : DiagState :=
  { d with spans := updateAt d.spans ctx fun sp => { sp with messages := sp.messages ++ [m] } }

/-- Append a list of warning texts to the span active in the context,
in order (the loop over `config.Validate` results). -/
def addWarns (d : DiagState) (ctx : Nat) : List String → DiagState
  | [] => d
  | w :: ws => addWarns (addMessage d ctx { severity := Severity.warn, text := w }) ctx ws

/-- Append a list of messages to the span active in the context, in
order. -/
def addMessages (d : DiagState) (ctx : Nat) : List Message → DiagState
  | [] => d
  | m :: ms => addMessages (addMessage d ctx m) ctx ms

/-- Modelled from the spec: `spanHandle.End()` marks the end of the span. -/
def endSpan (d : DiagState) (ctx : Nat) : DiagState :=
  { d with spans := updateAt d.spans ctx fun sp => { sp with ended := true } }

/-- Modelled from the spec: `Shutdown()` finalizes the tree, closing
any still-open spans, and counts one shutdown. -/
def shutdown (d : DiagState) : DiagState :=
  { spans := d.spans.map fun sp => { sp with ended := true },
    shutdowns := d.shutdowns + 1 }

/-- One listener stanza of the parsed configuration; only the fields
the diagnose command reads. -/
structure ListenerConf where
  tlsDisable : Bool
  tlsDisableClientCerts : Bool
deriving DecidableEq, Repr

/-- The parsed server configuration, restricted to what the diagnose
command reads: the listener stanzas and the findings that
`config.Validate` returns for it (the validator is an external
collaborator, so its output is carried as data of the parsed config). -/
structure VaultConfig where
  listeners : List ListenerConf
  validationWarnings : List String
deriving DecidableEq, Repr

/-- A listener bound by `InitListeners`: the socket it holds (numbered
by the index of its stanza) and its configuration. -/
structure BoundListener where
  sock : Nat
  config : ListenerConf
deriving DecidableEq, Repr

/-- Oracles for the external collaborators of the run: the
configuration loader, per-stanza socket bind, per-listener TLS
construction, cross-listener structural validation, and the storage
backend factory. -/
structure Env where
  parseResult : Except String VaultConfig
  bindOk : Nat → Bool
  tlsErr : Nat → Option String
  lnChecksErr : List Nat → Option String
  storageErr : Option String

/-- Modelled from the spec: `ServerCommand.InitListeners` is repository
code not under `src/`.  It binds each configured listener in stanza
order; a bind failure is fatal for the whole check and stops the pass.
The first component lists the listeners whose sockets were actually
opened (on failure: those bound before the failing stanza; per the
spec only the Cleanup Guard has authority to close them, so they stay
open); the second is the fatal bind error, if any. -/
def initListenersGo (bindOk : Nat → Bool) :
    List ListenerConf → Nat → List BoundListener → List BoundListener × Option String
  | [], _, acc => (acc.reverse, none)
  | c :: rest, i, acc =>
      if bindOk i then initListenersGo bindOk rest (i + 1) ({ sock := i, config := c } :: acc)
      else (acc.reverse, some "error initializing listener")

/-- Bind pass over all configured listener stanzas, starting at stanza
index 0 with no listener opened yet. -/
def initListeners (bindOk : Nat → Bool) (cfgs : List ListenerConf) :
    List BoundListener × Option String :=
  initListenersGo bindOk cfgs 0 []

/-- Warning text recorded for a listener whose configuration disables
TLS. -/
def tlsDisabledWarnText : String :=
  "TLS is disabled in a Listener config stanza."

/-- Warning text recorded for a TLS-enabled listener that does not
require client certificates. -/
def clientCertsWarnText : String :=
  "TLS for a listener is turned on without requiring client certs."

/-- Error text wrapping a TLS construction failure, as the source
formats it. -/
def tlsErrorText (e : String) : String :=
  "error creating TLS Configuration out of config file: " ++ e

/-- The loop body of the init-listeners check over the bound
listeners, from the source: a TLS-disabled listener yields one warning
and is left out of the sanitized set; otherwise a missing
client-certificate requirement yields a warning, then TLS construction
runs — its failure aborts the loop with a fatal error — and on success
the listener joins the sanitized set.  Returns the messages emitted in
order, the sanitized listeners in order, and the fatal error if any. -/
def processListeners (tlsErr : Nat → Option String) :
    List BoundListener → List Message × List BoundListener × Option String
  | [] => ([], [], none)
  | ln :: rest =>
      if ln.config.tlsDisable then
        let r := processListeners tlsErr rest
        ({ severity := Severity.warn, text := tlsDisabledWarnText } :: r.1, r.2)
      else
        let ccWarns : List Message :=
          if ln.config.tlsDisableClientCerts then
            [{ severity := Severity.warn, text := clientCertsWarnText }]
          else []
        match tlsErr ln.sock with
        | some e => (ccWarns, [], some (tlsErrorText e))
        | none =>
            let r := processListeners tlsErr rest
            (ccWarns ++ r.1, ln :: r.2.1, r.2.2)

/-- The run state threaded through `RunWithParsedFlags`: the reporter
state, the set of OS-level open listener sockets, the `sync.Once`
cleanup guard (`guardUsed`) with a count of how many times its close
action actually ran (`guardFired`), invocation counters for the three
check functions, the number of report writes with the snapshot
written, the (name, returned error) record of each executed check, and
the (open sockets, guard firings) pair observed at the moment the
storage check function is entered. -/
structure RunState where
  diag : DiagState
  openSocks : List Nat
  guardUsed : Bool
  guardFired : Nat
  parseCalls : Nat
  initLnCalls : Nat
  storageCalls : Nat
  writes : Nat
  writtenSpans : Option (List SpanRec)
  results : List (String × Option String)
  socksAtStorage : Option (List Nat × Nat)
deriving DecidableEq, Repr

/-- The state at the top of `RunWithParsedFlags`, before
`diagnose.Init`. -/
def initialRunState : RunState :=
  { diag := DiagState.init, openSocks := [], guardUsed := false, guardFired := 0,
    parseCalls := 0, initLnCalls := 0, storageCalls := 0, writes := 0,
    writtenSpans := none, results := [], socksAtStorage := none }

/-- The close action registered with the cleanup guard: close every
listener of `lns` (remove its socket from the open set) and count one
execution of the action. -/
def closeAll (st : RunState) (lns : List BoundListener) : RunState :=
  { st with
      openSocks := st.openSocks.filter fun s => !(lns.any fun l => l.sock == s),
      guardFired := st.guardFired + 1 }

/-- `cleanupGuard.Do(listenerCloseFunc)`: the `sync.Once` gate — the
first request runs the action, every later request is a no-op. -/
def guardDo (st : RunState) (lns : List BoundListener) : RunState :=
  if st.guardUsed then st
  else closeAll { st with guardUsed := true } lns

/-- Modelled from the spec: `diagnose.Test` (the Check Runner) is not
under `src/`.  Its call sites in the source pass only a context, a
name and a check function — no skip set reaches it — so this is the
Check Runner of the spec on the not-skipped branch: open a span of the
given name as a child of the context, invoke the check function with
the child context, on a non-nil error record the error text as an
error message on the span; end the span and return the error of the check
unchanged.  The executed check and its result are also recorded in
`results`. -/
def test (st : RunState) (ctx : Nat) (name : String)
    (fn : RunState → Nat → Option String × RunState) : Option String × RunState :=
  let p := startSpan st.diag (some ctx) name
  let st1 := { st with diag := p.1 }
  let r := fn st1 p.2
  match r.1 with
  | some e =>
      let st2 := { r.2 with diag := endSpan (addMessage r.2.diag p.2 { severity := Severity.error, text := e }) p.2 }
      (some e, { st2 with results := st2.results ++ [(name, some e)] })
  | none =>
      let st2 := { r.2 with diag := endSpan r.2.diag p.2 }
      (none, { st2 with results := st2.results ++ [(name, none)] })

/-- The check function passed for "Parse configuration": parse the
configuration; on success record every validation finding as a warning
on the span and return no error; on failure return the parse error. -/
def parseCheckFn (env : Env) (st : RunState) (ctx : Nat) : Option String × RunState :=
  let st1 := { st with parseCalls := st.parseCalls + 1 }
  match env.parseResult with
  | Except.error e => (some e, st1)
  | Except.ok cfg => (none, { st1 with diag := addWarns st1.diag ctx cfg.validationWarnings })

/-- The check function passed for "init-listeners", from the source:
run the bind pass; on a bind error return it at once (the cleanup
guard has not been armed yet).  Otherwise register the close of all
bound listeners with the cleanup guard — deferred to the return of
this function — then run the per-listener loop and finish with the
cross-listener structural validation over the sanitized set. -/
def initLnCheckFn (env : Env) (cfg : VaultConfig) (st : RunState) (ctx : Nat) :
    Option String × RunState :=
  let st1 := { st with initLnCalls := st.initLnCalls + 1 }
  let b := initListeners env.bindOk cfg.listeners
  let st2 := { st1 with openSocks := st1.openSocks ++ b.1.map BoundListener.sock }
  match b.2 with
  | some e => (some e, st2)
  | none =>
      let pr := processListeners env.tlsErr b.1
      let st3 := { st2 with diag := addMessages st2.diag ctx pr.1 }
      match pr.2.2 with
      | some e => (some e, guardDo st3 b.1)
      | none =>
          match env.lnChecksErr (pr.2.1.map BoundListener.sock) with
          | some e => (some e, guardDo st3 b.1)
          | none => (none, guardDo st3 b.1)

/-- The check function passed for "storage": invoke the storage
backend factory.  The state it observes on entry (open sockets, guard
firings) is recorded. -/
def storageCheckFn (env : Env) (st : RunState) (_ctx : Nat) : Option String × RunState :=
  let st1 := { st with
      storageCalls := st.storageCalls + 1,
      socksAtStorage := some (st.openSocks, st.guardFired) }
  (env.storageErr, st1)

/-- The body of the run between the opening of the root span and the
deferred finalization, from the source: the unconditional synthetic
`diagnose.Error` with the fixed text, then the three checks in
their fixed order, each aborting the rest on a non-nil error with exit
code 1.  The source branches on the error returned by the parse Test;
`parseCheckFn` returns an error exactly when `env.parseResult` is an
error (and the parsed config is the payload of the ok case), so the
branch is taken on `env.parseResult` directly. -/
def runBody (env : Env) (st : RunState) (root : Nat) : Nat × RunState :=
  let st1 := { st with diag := addMessage st.diag root { severity := Severity.error, text := "nope, didn\x27t work" } }
  let r1 := test st1 root "Parse configuration" (parseCheckFn env)
  match env.parseResult with
  | Except.error _ => (1, r1.2)
  | Except.ok cfg =>
      let r2 := test r1.2 root "init-listeners" (initLnCheckFn env cfg)
      match r2.1 with
      | some _ => (1, r2.2)
      | none =>
          let r3 := test r2.2 root "storage" (storageCheckFn env)
          match r3.1 with
          | some _ => (1, r3.2)
          | none => (0, r3.2)

/-- The deferred block of the run, from the source: end the root span,
`diagnose.Shutdown()`, and write the report — the snapshot of the
finalized tree — to standard output. -/
def finalizeRun (st : RunState) (root : Nat) : RunState :=
  let st1 := { st with diag := endSpan st.diag root }
  let d := shutdown st1.diag
  { st1 with diag := d, writes := st1.writes + 1, writtenSpans := some d.spans }

/-- `RunWithParsedFlags`, from the source: with no `-config` path the
run errors out before the reporter exists; otherwise `diagnose.Init`,
the root span "initialization" is opened, the deferred finalization is
registered, and the body runs.  The `-skip` flag values are parsed
into a field the function never reads, which is why the parameter is
unused here. -/
def RunWithParsedFlags (env : Env) (flagConfigs : List String)
    (_flagSkips : List String) : Nat × RunState :=
  if flagConfigs.isEmpty then (1, initialRunState)
  else
    let p := startSpan initialRunState.diag none "initialization"
    let st1 := { initialRunState with diag := p.1 }
    let r := runBody env st1 p.2
    (r.1, finalizeRun r.2 p.2)

/-- Shorthand for a warning message. -/
def wmsg (w : String) : Message :=
  { severity := Severity.warn, text := w }

/-- Shorthand for an error message. -/
def emsg (e : String) : Message :=
  { severity := Severity.error, text := e }

/-- The synthetic message injected unconditionally at the start of the
run body. -/
def synMsg : Message :=
  emsg "nope, didn\x27t work"

/-- The root span as it stands right after the synthetic error is
recorded on it. -/
def rootSpanRun : SpanRec :=
  { name := "initialization", parent := none, messages := [synMsg], ended := false }

/-- The "Parse configuration" span after a successful parse: one
warning per validation finding, ended. -/
def pSpanOk (cfg : VaultConfig) : SpanRec :=
  { name := "Parse configuration", parent := some 0,
    messages := cfg.validationWarnings.map wmsg, ended := true }

/-- The "init-listeners" span after the check ran to completion with
messages `msgs`, ended. -/
def ilSpanOk (msgs : List Message) : SpanRec :=
  { name := "init-listeners", parent := some 0, messages := msgs, ended := true }

/-- The "Parse configuration" span after a failed parse: the error
text recorded by the Check Runner, ended. -/
def pSpanErr (e : String) : SpanRec :=
  { name := "Parse configuration", parent := some 0, messages := [emsg e], ended := true }

/-- The "init-listeners" span after the check aborted with error `e`,
its messages being `msgs` followed by the error text the Check Runner
records. -/
def ilSpanErr (msgs : List Message) (e : String) : SpanRec :=
  { name := "init-listeners", parent := some 0, messages := msgs ++ [emsg e], ended := true }

/-- The "storage" span after a failed storage check. -/
def storSpanErr (e : String) : SpanRec :=
  { name := "storage", parent := some 0, messages := [emsg e], ended := true }

/-- The "storage" span after a successful storage check. -/
def storSpanOk : SpanRec :=
  { name := "storage", parent := some 0, messages := [], ended := true }

/-- Final pre-finalization state of a run whose configuration parse
failed with `e`. -/
def stParseErr (e : String) : RunState :=
  { diag := { spans := [rootSpanRun, pSpanErr e], shutdowns := 0 },
    openSocks := [], guardUsed := false, guardFired := 0,
    parseCalls := 1, initLnCalls := 0, storageCalls := 0, writes := 0,
    writtenSpans := none, results := [("Parse configuration", some e)],
    socksAtStorage := none }

/-- Final pre-finalization state of a run aborted by a bind failure:
the sockets bound before the failure (`lns`) are open, and the cleanup
guard was never armed. -/
def stBindErr (cfg : VaultConfig) (lns : List BoundListener) (e : String) : RunState :=
  { diag := { spans := [rootSpanRun, pSpanOk cfg, ilSpanErr [] e], shutdowns := 0 },
    openSocks := lns.map BoundListener.sock, guardUsed := false, guardFired := 0,
    parseCalls := 1, initLnCalls := 1, storageCalls := 0, writes := 0,
    writtenSpans := none,
    results := [("Parse configuration", none), ("init-listeners", some e)],
    socksAtStorage := none }

/-- Final pre-finalization state of a run aborted inside the
init-listeners check after a successful bind pass (TLS construction or
structural validation failed with `e`, after messages `msgs`): the
guard fired once and every socket is closed. -/
def stLnErr (cfg : VaultConfig) (msgs : List Message) (e : String) : RunState :=
  { diag := { spans := [rootSpanRun, pSpanOk cfg, ilSpanErr msgs e], shutdowns := 0 },
    openSocks := [], guardUsed := true, guardFired := 1,
    parseCalls := 1, initLnCalls := 1, storageCalls := 0, writes := 0,
    writtenSpans := none,
    results := [("Parse configuration", none), ("init-listeners", some e)],
    socksAtStorage := none }

/-- Final pre-finalization state of a run aborted by a storage
construction failure `e`: the listeners were already closed (guard
fired once) before the storage check was entered. -/
def stStorageErr (cfg : VaultConfig) (msgs : List Message) (e : String) : RunState :=
  { diag := { spans := [rootSpanRun, pSpanOk cfg, ilSpanOk msgs, storSpanErr e], shutdowns := 0 },
    openSocks := [], guardUsed := true, guardFired := 1,
    parseCalls := 1, initLnCalls := 1, storageCalls := 1, writes := 0,
    writtenSpans := none,
    results := [("Parse configuration", none), ("init-listeners", none), ("storage", some e)],
    socksAtStorage := some ([], 1) }

/-- Final pre-finalization state of a fully successful run. -/
def stAllOk (cfg : VaultConfig) (msgs : List Message) : RunState :=
  { diag := { spans := [rootSpanRun, pSpanOk cfg, ilSpanOk msgs, storSpanOk], shutdowns := 0 },
    openSocks := [], guardUsed := true, guardFired := 1,
    parseCalls := 1, initLnCalls := 1, storageCalls := 1, writes := 0,
    writtenSpans := none,
    results := [("Parse configuration", none), ("init-listeners", none), ("storage", none)],
    socksAtStorage := some ([], 1) }

/-- A listener stanza with TLS enabled and client certificates
required. -/
def lnPlain : ListenerConf :=
  { tlsDisable := false, tlsDisableClientCerts := false }

/-- A listener stanza whose configuration explicitly disables TLS. -/
def lnTlsOff : ListenerConf :=
  { tlsDisable := true, tlsDisableClientCerts := false }

/-- A configuration with one plain listener and no validation
findings. -/
def cfgOne : VaultConfig :=
  { listeners := [lnPlain], validationWarnings := [] }

/-- A configuration with two plain listeners. -/
def cfgTwo : VaultConfig :=
  { listeners := [lnPlain, lnPlain], validationWarnings := [] }

/-- A configuration with one plain listener and one validation
finding. -/
def cfgWarn : VaultConfig :=
  { listeners := [lnPlain], validationWarnings := ["validation finding"] }

/-- A fully healthy environment: one plain listener, every collaborator
succeeds. -/
def envOk : Env :=
  { parseResult := Except.ok cfgOne, bindOk := fun _ => true, tlsErr := fun _ => none,
    lnChecksErr := fun _ => none, storageErr := none }

/-- An environment whose configuration has invalid syntax. -/
def envParseFail : Env :=
  { parseResult := Except.error "invalid syntax", bindOk := fun _ => true,
    tlsErr := fun _ => none, lnChecksErr := fun _ => none, storageErr := none }

/-- An environment with two listener stanzas where the first bind
succeeds and the second bind fails. -/
def envBindFail : Env :=
  { parseResult := Except.ok cfgTwo, bindOk := fun i => i == 0,
    tlsErr := fun _ => none, lnChecksErr := fun _ => none, storageErr := none }

/-- An environment with two listener stanzas that both bind, where TLS
construction fails for the second one. -/
def envTlsFail : Env :=
  { parseResult := Except.ok cfgTwo, bindOk := fun _ => true,
    tlsErr := fun i => if i == 1 then some "bad certificate" else none,
    lnChecksErr := fun _ => none, storageErr := none }

/-- A healthy environment whose configuration carries one validation
finding. -/
def envWarn : Env :=
  { parseResult := Except.ok cfgWarn, bindOk := fun _ => true, tlsErr := fun _ => none,
    lnChecksErr := fun _ => none, storageErr := none }

/-- A run state whose cleanup guard has already been consumed. -/
def stGuardUsed : RunState :=
  { initialRunState with guardUsed := true }

/-- The two listeners bound by the bind pass of `cfgTwo` when every
bind succeeds. -/
def lnsTwo : List BoundListener :=
  [{ sock := 0, config := lnPlain }, { sock := 1, config := lnPlain }]

theorem addWarns_pair (a b : SpanRec) (sh : Nat) (ws : List String) :
    addWarns { spans := [a, b], shutdowns := sh } 1 ws
      = { spans := [a, { b with messages := b.messages ++ ws.map wmsg }], shutdowns := sh } := by
  induction ws generalizing b with
  | nil => simp [addWarns]
  | cons w ws ih =>
      simp only [addWarns, addMessage, updateAt, List.map_cons]
      rw [ih]
      simp [wmsg]

theorem addMessages_triple (a b c : SpanRec) (sh : Nat) (ms : List Message) :
    addMessages { spans := [a, b, c], shutdowns := sh } 2 ms
      = { spans := [a, b, { c with messages := c.messages ++ ms }], shutdowns := sh } := by
  induction ms generalizing c with
  | nil => simp [addMessages]
  | cons m ms ih =>
      simp only [addMessages, addMessage, updateAt]
      rw [ih]
      simp

theorem filter_socks_self (lns : List BoundListener) :
    ((lns.map BoundListener.sock).filter fun s => !(lns.any fun l => l.sock == s)) = [] := by
  have key : ∀ xs : List Nat, (∀ s ∈ xs, (lns.any fun l => l.sock == s) = true) →
      (xs.filter fun s => !(lns.any fun l => l.sock == s)) = [] := by
    intro xs
    induction xs with
    | nil => intro _; rfl
    | cons x xs ih =>
        intro h
        have hx := h x (by simp)
        simp only [List.filter_cons, hx, Bool.not_true, Bool.false_eq_true, if_false]
        exact ih fun s hs => h s (by simp [hs])
  apply key
  intro s hs
  rcases List.mem_map.mp hs with ⟨l, hl, rfl⟩
  simp only [List.any_eq_true]
  exact ⟨l, hl, by simp⟩

theorem initListenersGo_configs (bindOk : Nat → Bool) (cfgs : List ListenerConf) :
    ∀ (i : Nat) (acc : List BoundListener),
      (initListenersGo bindOk cfgs i acc).2 = none →
      (initListenersGo bindOk cfgs i acc).1.map BoundListener.config
        = acc.reverse.map BoundListener.config ++ cfgs := by
  induction cfgs with
  | nil => intro i acc _; simp [initListenersGo]
  | cons c rest ih =>
      intro i acc h
      by_cases hb : bindOk i = true
      · simp only [initListenersGo, hb, if_true] at h ⊢
        rw [ih (i + 1) ({ sock := i, config := c } :: acc) h]
        simp
      · simp only [initListenersGo, hb, Bool.false_eq_true, if_false] at h
        exact absurd h (by simp)

/-- On a fully successful bind pass, the opened-listener set carries
exactly the configured stanzas, in order. -/
theorem initListeners_configs (bindOk : Nat → Bool) (cfgs : List ListenerConf)
    (h : (initListeners bindOk cfgs).2 = none) :
    (initListeners bindOk cfgs).1.map BoundListener.config = cfgs := by
  have := initListenersGo_configs bindOk cfgs 0 [] h
  simpa [initListeners] using this

/-- Case analysis of a run that passed flag validation: exactly one of
six outcomes occurs, each with its explicit final (pre-finalization)
state. -/
theorem run_shape (env : Env) (flags skips : List String) (hne : flags ≠ []) :
    (∃ e, env.parseResult = Except.error e ∧
        RunWithParsedFlags env flags skips = (1, finalizeRun (stParseErr e) 0)) ∨
    (∃ cfg lns e, env.parseResult = Except.ok cfg ∧
        initListeners env.bindOk cfg.listeners = (lns, some e) ∧
        RunWithParsedFlags env flags skips = (1, finalizeRun (stBindErr cfg lns e) 0)) ∨
    (∃ cfg lns msgs san e, env.parseResult = Except.ok cfg ∧
        initListeners env.bindOk cfg.listeners = (lns, none) ∧
        processListeners env.tlsErr lns = (msgs, san, some e) ∧
        RunWithParsedFlags env flags skips = (1, finalizeRun (stLnErr cfg msgs e) 0)) ∨
    (∃ cfg lns msgs san e, env.parseResult = Except.ok cfg ∧
        initListeners env.bindOk cfg.listeners = (lns, none) ∧
        processListeners env.tlsErr lns = (msgs, san, none) ∧
        env.lnChecksErr (san.map BoundListener.sock) = some e ∧
        RunWithParsedFlags env flags skips = (1, finalizeRun (stLnErr cfg msgs e) 0)) ∨
    (∃ cfg lns msgs san e, env.parseResult = Except.ok cfg ∧
        initListeners env.bindOk cfg.listeners = (lns, none) ∧
        processListeners env.tlsErr lns = (msgs, san, none) ∧
        env.lnChecksErr (san.map BoundListener.sock) = none ∧
        env.storageErr = some e ∧
        RunWithParsedFlags env flags skips = (1, finalizeRun (stStorageErr cfg msgs e) 0)) ∨
    (∃ cfg lns msgs san, env.parseResult = Except.ok cfg ∧
        initListeners env.bindOk cfg.listeners = (lns, none) ∧
        processListeners env.tlsErr lns = (msgs, san, none) ∧
        env.lnChecksErr (san.map BoundListener.sock) = none ∧
        env.storageErr = none ∧
        RunWithParsedFlags env flags skips = (0, finalizeRun (stAllOk cfg msgs) 0)) := by
  have hfe : flags.isEmpty = false := by
    cases flags with
    | nil => exact absurd rfl hne
    | cons a as => rfl
  cases hp : env.parseResult with
  | error e =>
      refine Or.inl ⟨e, rfl, ?_⟩
      simp [RunWithParsedFlags, hfe, runBody, test, parseCheckFn, hp, startSpan,
        addMessage, updateAt, endSpan, initialRunState, DiagState.init, finalizeRun,
        shutdown, stParseErr, rootSpanRun, pSpanErr, synMsg, emsg]
  | ok cfg =>
      rcases hb : initListeners env.bindOk cfg.listeners with ⟨lns, berr⟩
      cases berr with
      | some e =>
          refine Or.inr (Or.inl ⟨cfg, lns, e, rfl, hb, ?_⟩)
          simp [RunWithParsedFlags, hfe, runBody, test, parseCheckFn, initLnCheckFn,
            hp, hb, startSpan, addMessage, updateAt, endSpan, initialRunState,
            DiagState.init, finalizeRun, shutdown, addWarns_pair, stBindErr,
            rootSpanRun, pSpanOk, ilSpanErr, synMsg, emsg]
      | none =>
          rcases hpr : processListeners env.tlsErr lns with ⟨msgs, san, perr⟩
          cases perr with
          | some e =>
              refine Or.inr (Or.inr (Or.inl ⟨cfg, lns, msgs, san, e, rfl, hb, hpr, ?_⟩))
              simp [RunWithParsedFlags, hfe, runBody, test, parseCheckFn, initLnCheckFn,
                hp, hb, hpr, startSpan, addMessage, updateAt, endSpan, initialRunState,
                DiagState.init, finalizeRun, shutdown, addWarns_pair, addMessages_triple,
                guardDo, closeAll, filter_socks_self, stLnErr, rootSpanRun, pSpanOk,
                ilSpanErr, synMsg, emsg]
          | none =>
              cases hc : env.lnChecksErr (san.map BoundListener.sock) with
              | some e =>
                  refine Or.inr (Or.inr (Or.inr (Or.inl ⟨cfg, lns, msgs, san, e, rfl, hb, hpr, hc, ?_⟩)))
                  simp [RunWithParsedFlags, hfe, runBody, test, parseCheckFn, initLnCheckFn,
                    hp, hb, hpr, hc, startSpan, addMessage, updateAt, endSpan, initialRunState,
                    DiagState.init, finalizeRun, shutdown, addWarns_pair, addMessages_triple,
                    guardDo, closeAll, filter_socks_self, stLnErr, rootSpanRun, pSpanOk,
                    ilSpanErr, synMsg, emsg]
              | none =>
                  cases hs : env.storageErr with
                  | some e =>
                      refine Or.inr (Or.inr (Or.inr (Or.inr (Or.inl ⟨cfg, lns, msgs, san, e, rfl, hb, hpr, hc, rfl, ?_⟩))))
                      simp [RunWithParsedFlags, hfe, runBody, test, parseCheckFn, initLnCheckFn,
                        storageCheckFn, hp, hb, hpr, hc, hs, startSpan, addMessage, updateAt,
                        endSpan, initialRunState, DiagState.init, finalizeRun, shutdown,
                        addWarns_pair, addMessages_triple, guardDo, closeAll, filter_socks_self,
                        stStorageErr, rootSpanRun, pSpanOk, ilSpanOk, storSpanErr, synMsg, emsg]
                  | none =>
                      refine Or.inr (Or.inr (Or.inr (Or.inr (Or.inr ⟨cfg, lns, msgs, san, rfl, hb, hpr, hc, rfl, ?_⟩))))
                      simp [RunWithParsedFlags, hfe, runBody, test, parseCheckFn, initLnCheckFn,
                        storageCheckFn, hp, hb, hpr, hc, hs, startSpan, addMessage, updateAt,
                        endSpan, initialRunState, DiagState.init, finalizeRun, shutdown,
                        addWarns_pair, addMessages_triple, guardDo, closeAll, filter_socks_self,
                        stAllOk, rootSpanRun, pSpanOk, ilSpanOk, storSpanOk, synMsg, emsg]

/-- C2: for every run that passes flag validation (at least one
`-config` given), the reporter is shut down exactly once and the
report is written to standard output exactly once, on every exit path
— including runs aborted by a fatal error in the parse, init-listeners
or storage check — and the written snapshot reflects the spans of the
tree at the point of finalization. -/
theorem c2_report_written_once (env : Env) (flags skips : List String) (hne : flags ≠ []) :
    (RunWithParsedFlags env flags skips).2.diag.shutdowns = 1 ∧
    (RunWithParsedFlags env flags skips).2.writes = 1 ∧
    (RunWithParsedFlags env flags skips).2.writtenSpans
      = some (RunWithParsedFlags env flags skips).2.diag.spans := by
  rcases run_shape env flags skips hne with
    ⟨e, hp, hrun⟩ | ⟨cfg, lns, e, hp, hb, hrun⟩ | ⟨cfg, lns, msgs, san, e, hp, hb, hpr, hrun⟩ |
    ⟨cfg, lns, msgs, san, e, hp, hb, hpr, hc, hrun⟩ |
    ⟨cfg, lns, msgs, san, e, hp, hb, hpr, hc, hs, hrun⟩ |
    ⟨cfg, lns, msgs, san, hp, hb, hpr, hc, hs, hrun⟩ <;>
  rw [hrun] <;>
  simp [finalizeRun, shutdown, endSpan, updateAt, stParseErr, stBindErr, stLnErr,
    stStorageErr, stAllOk]

/-- C2 witness: the statement instantiated on a healthy run. -/
theorem c2_report_written_once_witness :
    ((["c"] : List String) ≠ []) ∧
    ((RunWithParsedFlags envOk ["c"] []).2.diag.shutdowns = 1 ∧
     (RunWithParsedFlags envOk ["c"] []).2.writes = 1 ∧
     (RunWithParsedFlags envOk ["c"] []).2.writtenSpans
       = some (RunWithParsedFlags envOk ["c"] []).2.diag.spans) :=
  ⟨by decide, c2_report_written_once envOk ["c"] [] (by decide)⟩

/-- C3: the cleanup guard release action runs at most once per run;
once the guard is consumed, a further request is a no-op that leaves
the state untouched, and on every run (any environment, any flags) the
close action fires at most once. -/
theorem c3_cleanup_guard_once :
    (∀ (st : RunState) (lns : List BoundListener),
        st.guardUsed = true → guardDo st lns = st) ∧
    (∀ (env : Env) (flags skips : List String),
        (RunWithParsedFlags env flags skips).2.guardFired ≤ 1) := by
  constructor
  · intro st lns h
    simp [guardDo, h]
  · intro env flags skips
    by_cases hne : flags = []
    · subst hne
      simp [RunWithParsedFlags, initialRunState]
    · rcases run_shape env flags skips hne with
        ⟨e, hp, hrun⟩ | ⟨cfg, lns, e, hp, hb, hrun⟩ | ⟨cfg, lns, msgs, san, e, hp, hb, hpr, hrun⟩ |
        ⟨cfg, lns, msgs, san, e, hp, hb, hpr, hc, hrun⟩ |
        ⟨cfg, lns, msgs, san, e, hp, hb, hpr, hc, hs, hrun⟩ |
        ⟨cfg, lns, msgs, san, hp, hb, hpr, hc, hs, hrun⟩ <;>
      rw [hrun] <;>
      simp [finalizeRun, shutdown, endSpan, updateAt, stParseErr, stBindErr, stLnErr,
        stStorageErr, stAllOk]

/-- C3 witness: a consumed guard ignores a further request, and a
healthy run fires the close action at most once. -/
theorem c3_cleanup_guard_once_witness :
    (stGuardUsed.guardUsed = true ∧ guardDo stGuardUsed [] = stGuardUsed) ∧
    (RunWithParsedFlags envOk ["c"] []).2.guardFired ≤ 1 :=
  ⟨⟨rfl, c3_cleanup_guard_once.1 stGuardUsed [] rfl⟩,
   c3_cleanup_guard_once.2 envOk ["c"] []⟩

/-- C10: whenever the storage check function is invoked it observes no
open listener socket and exactly one firing of the cleanup guard — the
guard fires when the init-listeners check function returns, so all
listeners opened by a successful bind pass are already closed before
the storage check runs; and the storage check observes a state exactly
when it was invoked. -/
theorem c10_listeners_closed_before_storage (env : Env) (flags skips : List String) :
    ((RunWithParsedFlags env flags skips).2.socksAtStorage = none ∨
     (RunWithParsedFlags env flags skips).2.socksAtStorage = some ([], 1)) ∧
    ((RunWithParsedFlags env flags skips).2.socksAtStorage.isSome = true ↔
     (RunWithParsedFlags env flags skips).2.storageCalls = 1) := by
  by_cases hne : flags = []
  · subst hne
    constructor
    · left
      simp [RunWithParsedFlags, initialRunState]
    · simp [RunWithParsedFlags, initialRunState]
  · rcases run_shape env flags skips hne with
      ⟨e, hp, hrun⟩ | ⟨cfg, lns, e, hp, hb, hrun⟩ | ⟨cfg, lns, msgs, san, e, hp, hb, hpr, hrun⟩ |
      ⟨cfg, lns, msgs, san, e, hp, hb, hpr, hc, hrun⟩ |
      ⟨cfg, lns, msgs, san, e, hp, hb, hpr, hc, hs, hrun⟩ |
      ⟨cfg, lns, msgs, san, hp, hb, hpr, hc, hs, hrun⟩ <;>
    rw [hrun] <;>
    constructor <;>
    simp [finalizeRun, shutdown, endSpan, updateAt, stParseErr, stBindErr, stLnErr,
      stStorageErr, stAllOk]

/-- C4: the three checks run strictly sequentially in the fixed order
parse configuration, init-listeners, storage — the span names of any
run form one of the three prefixes of that order — and a parse failure
aborts the remaining checks: the run exits 1, neither an
"init-listeners" nor a "storage" span exists, and neither later check
function was invoked. -/
theorem c4_sequential_fixed_order (env : Env) (flags skips : List String) (hne : flags ≠ []) :
    (∀ e, env.parseResult = Except.error e →
        (RunWithParsedFlags env flags skips).1 = 1 ∧
        (RunWithParsedFlags env flags skips).2.diag.spans.map SpanRec.name
          = ["initialization", "Parse configuration"] ∧
        (RunWithParsedFlags env flags skips).2.initLnCalls = 0 ∧
        (RunWithParsedFlags env flags skips).2.storageCalls = 0) ∧
    ((RunWithParsedFlags env flags skips).2.diag.spans.map SpanRec.name
        = ["initialization", "Parse configuration"] ∨
     (RunWithParsedFlags env flags skips).2.diag.spans.map SpanRec.name
        = ["initialization", "Parse configuration", "init-listeners"] ∨
     (RunWithParsedFlags env flags skips).2.diag.spans.map SpanRec.name
        = ["initialization", "Parse configuration", "init-listeners", "storage"]) := by
  rcases run_shape env flags skips hne with
    ⟨e, hp, hrun⟩ | ⟨cfg, lns, e, hp, hb, hrun⟩ | ⟨cfg, lns, msgs, san, e, hp, hb, hpr, hrun⟩ |
    ⟨cfg, lns, msgs, san, e, hp, hb, hpr, hc, hrun⟩ |
    ⟨cfg, lns, msgs, san, e, hp, hb, hpr, hc, hs, hrun⟩ |
    ⟨cfg, lns, msgs, san, hp, hb, hpr, hc, hs, hrun⟩
  · constructor
    · intro e1 hp1
      rw [hrun]
      simp [finalizeRun, shutdown, endSpan, updateAt, stParseErr, rootSpanRun, pSpanErr]
    · left
      rw [hrun]
      simp [finalizeRun, shutdown, endSpan, updateAt, stParseErr, rootSpanRun, pSpanErr]
  · refine ⟨fun e1 hp1 => ?_, ?_⟩
    · rw [hp] at hp1
      simp at hp1
    · right; left
      rw [hrun]
      simp [finalizeRun, shutdown, endSpan, updateAt, stBindErr, rootSpanRun, pSpanOk, ilSpanErr]
  · refine ⟨fun e1 hp1 => ?_, ?_⟩
    · rw [hp] at hp1
      simp at hp1
    · right; left
      rw [hrun]
      simp [finalizeRun, shutdown, endSpan, updateAt, stLnErr, rootSpanRun, pSpanOk, ilSpanErr]
  · refine ⟨fun e1 hp1 => ?_, ?_⟩
    · rw [hp] at hp1
      simp at hp1
    · right; left
      rw [hrun]
      simp [finalizeRun, shutdown, endSpan, updateAt, stLnErr, rootSpanRun, pSpanOk, ilSpanErr]
  · refine ⟨fun e1 hp1 => ?_, ?_⟩
    · rw [hp] at hp1
      simp at hp1
    · right; right
      rw [hrun]
      simp [finalizeRun, shutdown, endSpan, updateAt, stStorageErr, rootSpanRun, pSpanOk,
        ilSpanOk, storSpanErr]
  · refine ⟨fun e1 hp1 => ?_, ?_⟩
    · rw [hp] at hp1
      simp at hp1
    · right; right
      rw [hrun]
      simp [finalizeRun, shutdown, endSpan, updateAt, stAllOk, rootSpanRun, pSpanOk,
        ilSpanOk, storSpanOk]

/-- C4 witness: the statement instantiated on a run whose
configuration fails to parse. -/
theorem c4_sequential_fixed_order_witness :
    ((["c"] : List String) ≠ []) ∧
    envParseFail.parseResult = Except.error "invalid syntax" ∧
    ((RunWithParsedFlags envParseFail ["c"] []).1 = 1 ∧
     (RunWithParsedFlags envParseFail ["c"] []).2.diag.spans.map SpanRec.name
       = ["initialization", "Parse configuration"] ∧
     (RunWithParsedFlags envParseFail ["c"] []).2.initLnCalls = 0 ∧
     (RunWithParsedFlags envParseFail ["c"] []).2.storageCalls = 0) :=
  ⟨by decide, rfl,
   (c4_sequential_fixed_order envParseFail ["c"] [] (by decide)).1 "invalid syntax" rfl⟩

/-- C5: the command exits 1 when no `-config` path is supplied, before
any check runs; otherwise it exits 0 exactly when every executed check
returned no error — so any fatal error from configuration parsing,
listener/TLS construction or storage construction forces exit 1. -/
theorem c5_exit_codes (env : Env) (flags skips : List String) :
    (flags = [] → (RunWithParsedFlags env flags skips).1 = 1) ∧
    (flags ≠ [] →
      ((RunWithParsedFlags env flags skips).1 = 0 ↔
        ∀ p ∈ (RunWithParsedFlags env flags skips).2.results, p.2 = none)) := by
  constructor
  · intro h
    subst h
    simp [RunWithParsedFlags, initialRunState]
  · intro hne
    rcases run_shape env flags skips hne with
      ⟨e, hp, hrun⟩ | ⟨cfg, lns, e, hp, hb, hrun⟩ | ⟨cfg, lns, msgs, san, e, hp, hb, hpr, hrun⟩ |
      ⟨cfg, lns, msgs, san, e, hp, hb, hpr, hc, hrun⟩ |
      ⟨cfg, lns, msgs, san, e, hp, hb, hpr, hc, hs, hrun⟩ |
      ⟨cfg, lns, msgs, san, hp, hb, hpr, hc, hs, hrun⟩ <;>
    rw [hrun] <;>
    simp [finalizeRun, shutdown, endSpan, updateAt, stParseErr, stBindErr, stLnErr,
      stStorageErr, stAllOk]

/-- C5 witness: the statement instantiated on the missing-config path
and on a healthy run. -/
theorem c5_exit_codes_witness :
    (RunWithParsedFlags envOk [] []).1 = 1 ∧
    ((["c"] : List String) ≠ []) ∧
    ((RunWithParsedFlags envOk ["c"] []).1 = 0 ↔
      ∀ p ∈ (RunWithParsedFlags envOk ["c"] []).2.results, p.2 = none) :=
  ⟨(c5_exit_codes envOk [] []).1 rfl, by decide,
   (c5_exit_codes envOk ["c"] []).2 (by decide)⟩

/-- C6 counterexample: with two listener stanzas where the first bind
succeeds and the second fails, the run aborts with exit 1 while the
socket of the first listener is still open and the cleanup guard was never
armed and never fired — so a listener already opened when a later
listener in the same pass fails to bind is not covered by cleanup,
contrary to the claim. -/
theorem c6_counterexample :
    (RunWithParsedFlags envBindFail ["c"] []).1 = 1 ∧
    (RunWithParsedFlags envBindFail ["c"] []).2.openSocks = [0] ∧
    (RunWithParsedFlags envBindFail ["c"] []).2.guardFired = 0 ∧
    (RunWithParsedFlags envBindFail ["c"] []).2.guardUsed = false := by
  refine ⟨rfl, rfl, rfl, rfl⟩

/-- C6 amended: the opened listeners are registered with the cleanup
guard all at once, immediately after the whole bind pass succeeds and
before any later step of the check can fail; hence whenever the bind
pass succeeds — whatever happens afterwards in the run — every opened
listener is closed by exactly one firing of the guard. -/
theorem c6_guard_covers_full_bind_pass (env : Env) (flags skips : List String)
    (cfg : VaultConfig) (lns : List BoundListener) (hne : flags ≠ [])
    (hp : env.parseResult = Except.ok cfg)
    (hb : initListeners env.bindOk cfg.listeners = (lns, none)) :
    (RunWithParsedFlags env flags skips).2.openSocks = [] ∧
    (RunWithParsedFlags env flags skips).2.guardFired = 1 := by
  rcases run_shape env flags skips hne with
    ⟨e, hp1, hrun⟩ | ⟨cfg1, lns1, e, hp1, hb1, hrun⟩ |
    ⟨cfg1, lns1, msgs, san, e, hp1, hb1, hpr, hrun⟩ |
    ⟨cfg1, lns1, msgs, san, e, hp1, hb1, hpr, hc, hrun⟩ |
    ⟨cfg1, lns1, msgs, san, e, hp1, hb1, hpr, hc, hs, hrun⟩ |
    ⟨cfg1, lns1, msgs, san, hp1, hb1, hpr, hc, hs, hrun⟩
  · rw [hp] at hp1
    simp at hp1
  · rw [hp] at hp1
    have hcfg : cfg = cfg1 := by
      injection hp1
    subst hcfg
    rw [hb] at hb1
    simp at hb1
  all_goals
    rw [hrun]
    simp [finalizeRun, shutdown, endSpan, updateAt, stLnErr, stStorageErr, stAllOk]

/-- C6 amended witness: two listeners bind, the second fails TLS
construction; all opened sockets end up closed with one guard
firing. -/
theorem c6_guard_covers_full_bind_pass_witness :
    ((["c"] : List String) ≠ []) ∧
    envTlsFail.parseResult = Except.ok cfgTwo ∧
    initListeners envTlsFail.bindOk cfgTwo.listeners = (lnsTwo, none) ∧
    ((RunWithParsedFlags envTlsFail ["c"] []).2.openSocks = [] ∧
     (RunWithParsedFlags envTlsFail ["c"] []).2.guardFired = 1) :=
  ⟨by decide, rfl, by decide,
   c6_guard_covers_full_bind_pass envTlsFail ["c"] [] cfgTwo lnsTwo (by decide) rfl (by decide)⟩

/-- C7: a listener whose configuration explicitly disables TLS
contributes exactly one warning and no error of its own and is left
out of the sanitized set handed to structural validation; the
sanitized set never contains a TLS-disabled listener; and the
opened-listener set the cleanup guard owns keeps every configured
listener of a successful bind pass, TLS-disabled ones included. -/
theorem c7_tls_disabled_listener :
    (∀ (tlsErr : Nat → Option String) (lns : List BoundListener) (l : BoundListener),
        l ∈ (processListeners tlsErr lns).2.1 → l.config.tlsDisable = false) ∧
    (∀ (tlsErr : Nat → Option String) (ln : BoundListener) (rest : List BoundListener),
        ln.config.tlsDisable = true →
        processListeners tlsErr (ln :: rest)
          = ({ severity := Severity.warn, text := tlsDisabledWarnText }
                :: (processListeners tlsErr rest).1,
             (processListeners tlsErr rest).2)) ∧
    (∀ (bindOk : Nat → Bool) (cfgs : List ListenerConf),
        (initListeners bindOk cfgs).2 = none →
        (initListeners bindOk cfgs).1.map BoundListener.config = cfgs) := by
  refine ⟨?_, ?_, initListeners_configs⟩
  · intro tlsErr lns
    induction lns with
    | nil =>
        intro l h
        simp [processListeners] at h
    | cons ln rest ih =>
        intro l hl
        by_cases hd : ln.config.tlsDisable = true
        · simp only [processListeners, hd, if_true] at hl
          exact ih l hl
        · have hd0 : ln.config.tlsDisable = false := by
            cases hx : ln.config.tlsDisable
            · rfl
            · exact absurd hx hd
          cases ht : tlsErr ln.sock with
          | some e =>
              simp only [processListeners, hd0, Bool.false_eq_true, if_false, ht] at hl
              simp at hl
          | none =>
              simp only [processListeners, hd0, Bool.false_eq_true, if_false, ht] at hl
              rcases List.mem_cons.mp hl with h1 | h2
              · subst h1
                exact hd0
              · exact ih l h2
  · intro tlsErr ln rest hd
    simp [processListeners, hd]

/-- C7 witness: the statement instantiated on a TLS-enabled and a
TLS-disabled listener. -/
theorem c7_tls_disabled_listener_witness :
    (({ sock := 0, config := lnPlain } : BoundListener)
        ∈ (processListeners (fun _ => none) [{ sock := 0, config := lnPlain }]).2.1 ∧
      lnPlain.tlsDisable = false) ∧
    (lnTlsOff.tlsDisable = true ∧
      processListeners (fun _ => none) [{ sock := 5, config := lnTlsOff }]
        = ([{ severity := Severity.warn, text := tlsDisabledWarnText }], [], none)) ∧
    ((initListeners (fun _ => true) [lnTlsOff]).2 = none ∧
      (initListeners (fun _ => true) [lnTlsOff]).1.map BoundListener.config = [lnTlsOff]) := by
  refine ⟨⟨by decide, c7_tls_disabled_listener.1 (fun _ => none)
      [{ sock := 0, config := lnPlain }] { sock := 0, config := lnPlain } (by decide)⟩,
    ⟨rfl, ?_⟩,
    ⟨by decide, c7_tls_disabled_listener.2.2 (fun _ => true) [lnTlsOff] (by decide)⟩⟩
  rw [c7_tls_disabled_listener.2.1 (fun _ => none) { sock := 5, config := lnTlsOff } [] rfl]
  rfl

/-- C9: when configuration parsing succeeds, every validation finding
is recorded as a warning message on the "Parse configuration" span,
the check returns no error, and the run continues into the
init-listeners check — recording warnings on a span does not by itself
abort execution. -/
theorem c9_validation_warnings_nonfatal (env : Env) (flags skips : List String)
    (cfg : VaultConfig) (hne : flags ≠ []) (hp : env.parseResult = Except.ok cfg) :
    ((RunWithParsedFlags env flags skips).2.diag.spans[1]?).map SpanRec.messages
      = some (cfg.validationWarnings.map wmsg) ∧
    (RunWithParsedFlags env flags skips).2.results.head?
      = some ("Parse configuration", none) ∧
    (RunWithParsedFlags env flags skips).2.initLnCalls = 1 := by
  rcases run_shape env flags skips hne with
    ⟨e, hp1, hrun⟩ | ⟨cfg1, lns1, e, hp1, hb1, hrun⟩ |
    ⟨cfg1, lns1, msgs, san, e, hp1, hb1, hpr, hrun⟩ |
    ⟨cfg1, lns1, msgs, san, e, hp1, hb1, hpr, hc, hrun⟩ |
    ⟨cfg1, lns1, msgs, san, e, hp1, hb1, hpr, hc, hs, hrun⟩ |
    ⟨cfg1, lns1, msgs, san, hp1, hb1, hpr, hc, hs, hrun⟩
  · rw [hp] at hp1
    simp at hp1
  all_goals
    rw [hp] at hp1
    have hcfg : cfg = cfg1 := by injection hp1
    subst hcfg
    rw [hrun]
    simp [finalizeRun, shutdown, endSpan, updateAt, stBindErr, stLnErr, stStorageErr,
      stAllOk, rootSpanRun, pSpanOk, ilSpanOk, ilSpanErr, storSpanErr, storSpanOk]

/-- C9 witness: the statement instantiated on a healthy run whose
configuration carries one validation finding. -/
theorem c9_validation_warnings_nonfatal_witness :
    ((["c"] : List String) ≠ []) ∧
    envWarn.parseResult = Except.ok cfgWarn ∧
    (((RunWithParsedFlags envWarn ["c"] []).2.diag.spans[1]?).map SpanRec.messages
        = some (cfgWarn.validationWarnings.map wmsg) ∧
      (RunWithParsedFlags envWarn ["c"] []).2.results.head?
        = some ("Parse configuration", none) ∧
      (RunWithParsedFlags envWarn ["c"] []).2.initLnCalls = 1) :=
  ⟨by decide, rfl,
   c9_validation_warnings_nonfatal envWarn ["c"] [] cfgWarn (by decide) rfl⟩

/-- C1 (code-bug evidence): with `-skip storage` and an otherwise
healthy configuration the run exits 0 but the storage check function —
and with it the storage factory — is still invoked once; indeed the
whole run is independent of the skip flags, which are parsed into a
field the run never reads, so no check is ever skipped and no span is
ever marked skipped. -/
theorem c1_skip_flag_ignored :
    (RunWithParsedFlags envOk ["c"] ["storage"]).1 = 0 ∧
    (RunWithParsedFlags envOk ["c"] ["storage"]).2.storageCalls = 1 ∧
    (∀ (env : Env) (flags s1 s2 : List String),
        RunWithParsedFlags env flags s1 = RunWithParsedFlags env flags s2) :=
  ⟨rfl, rfl, fun _ _ _ _ => rfl⟩

/-- C8 (code-bug evidence): the run unconditionally records the
synthetic always-failing message on the root span — it is present both
in a fully healthy run and in a run whose parse fails, independently
of any real check. -/
theorem c8_synthetic_error_injected :
    (((RunWithParsedFlags envOk ["c"] []).2.diag.spans[0]?).map SpanRec.messages
        = some [synMsg] ∧
      synMsg.severity = Severity.error) ∧
    ((RunWithParsedFlags envParseFail ["c"] []).2.diag.spans[0]?).map SpanRec.messages
      = some [synMsg] :=
  ⟨⟨rfl, rfl⟩, rfl⟩

end OperatorDiagnose
